import Mathlib

/-!
Verification development for the GrantWell serverless request handlers.

Each Lambda handler in the repository is shallowly embedded as a pure Lean
function.  The managed DynamoDB table backing an adapter is modelled as a
list of typed rows; a DynamoDB call becomes an explicit transformation of
that list.  The model follows the documented semantics of the backend:

* `put_item` replaces the item with the same primary key, or inserts it;
* `delete_item` removes the item with the given key and succeeds whether
  or not such an item exists (`ResourceNotFoundException` is raised only
  when the *table* is missing, never for a missing item);
* `update_item` applies its SET expression to the existing item, or
  upserts a fresh item whose unset attributes are defaulted;
* `query` against a secondary index scans the requested partition in the
  index sort order, evaluates at most `Limit` rows, applies the filter
  expression afterwards, and reports a `LastEvaluatedKey` when rows remain.

The infrastructure-failure paths of the backend (throttling, missing
table, malformed expressions) are not exercised by the claims settled
here, so the model is the deterministic no-infrastructure-error run.
Current time, generated UUIDs and bucket names enter as explicit
parameters.  JSON transport encoding is modelled structurally: a handler
"body" is kept as the typed value that the Python code serialises.
-/

namespace GrantWell

/-! ### Python-style helpers -/

/-- Truthiness of an optional string, as Python's `if not x` sees it:
`None` and the empty string are falsy. -/
def pyTruthy : Option String → Bool
  | none => false
  | some s => s ≠ ""

/-- Python's `a or b` on two optional strings: yields `a` when `a` is
truthy, otherwise `b`. -/
def pyOr (a b : Option String) : Option String :=
  match a with
  | some s => if s = "" then b else some s
  | none => b

/-- Python's `x or d` for an optional string with a string default:
`None` and `""` fall back to `d`. -/
def pyOrDefault (x : Option String) (d : String) : String :=
  match x with
  | some s => if s = "" then d else s
  | none => d

/-- Substring test on character lists: is `pat` a contiguous infix? -/
def charsContain (pat : List Char) : List Char → Bool
  | [] => pat.isEmpty
  | c :: cs => pat.isPrefixOf (c :: cs) || charsContain pat cs

/-- Python's `pat in s` substring test on strings. -/
def strIn (pat s : String) : Bool :=
  charsContain pat.toList s.toList

/-- Python's `s.startswith(pre)`. -/
def pyStartsWith (s pre : String) : Bool :=
  pre.toList.isPrefixOf s.toList

/-- ASCII whitespace, for `str.strip()` (Python also strips some rarer
Unicode whitespace; only ASCII whitespace occurs in the claims settled
here). -/
def isSpaceChar (c : Char) : Bool :=
  c = ' ' || c = '\t' || c = '\n' || c = '\r'

/-- Python's `str.strip()`: drop whitespace from both ends. -/
def pyStrip (s : String) : String :=
  String.mk (((s.toList.dropWhile isSpaceChar).reverse.dropWhile isSpaceChar).reverse)

/-! ### Draft store adapter (`draft-editor/lambda_function.py`)

The draft table is keyed by `(user_id, session_id)`.  Dictionary-valued
attributes (`sections`, `project_basics`, `questionnaire`) are modelled
as association lists from section names to contents. -/

/-- A Python `dict` of strings, as stored in the draft attributes. -/
abbrev SMap := List (String × String)

/-- One row of the draft table.  `document_identifier` is optional
because the Python code stores `None` there when the request omits it. -/
structure DraftRow where
  user_id : String
  session_id : String
  title : String
  document_identifier : Option String
  sections : SMap
  project_basics : SMap
  questionnaire : SMap
  last_modified : String
  status : String
deriving DecidableEq

abbrev DraftStore := List DraftRow

/-- Key match for the draft table's primary key. -/
def draftKeyIs (uid sid : String) (r : DraftRow) : Bool :=
  r.user_id == uid && r.session_id == sid

/-- `table.get_item` on the draft table. -/
def findDraft (store : DraftStore) (uid sid : String) : Option DraftRow :=
  store.find? (draftKeyIs uid sid)

/-- `table.put_item`: replaces the row with the same key, or inserts. -/
def putDraft (store : DraftStore) (row : DraftRow) : DraftStore :=
  store.filter (fun r => !draftKeyIs row.user_id row.session_id r) ++ [row]

/-- Optional arguments of `update_draft` (Python keyword arguments all
defaulting to `None`). -/
structure UpdateDraftArgs where
  sections : Option SMap := none
  title : Option String := none
  document_identifier : Option String := none
  project_basics : Option SMap := none
  questionnaire : Option SMap := none
  last_modified : Option String := none

/-- The value stored for `title` by `update_draft`:
`title.strip() if title else ""`. -/
def updateTitleValue (t : String) : String :=
  if t = "" then "" else pyStrip t

/-- The value stored for `last_modified`:
`last_modified or str(datetime.now())`. -/
def lastModifiedValue (lm : Option String) (now : String) : String :=
  pyOrDefault lm now

/-- Effect of `update_draft`'s SET expression on one row: each supplied
field is written, unsupplied fields are untouched, and `last_modified`
is always written. -/
def applySetExpr (a : UpdateDraftArgs) (now : String) (r : DraftRow) : DraftRow :=
  { r with
    sections := a.sections.getD r.sections
    title := match a.title with
      | some t => updateTitleValue t
      | none => r.title
    document_identifier := match a.document_identifier with
      | some d => some d
      | none => r.document_identifier
    project_basics := a.project_basics.getD r.project_basics
    questionnaire := a.questionnaire.getD r.questionnaire
    last_modified := lastModifiedValue a.last_modified now }

/-- Base row for the upsert case of `update_item`: a fresh item holding
only the SET attributes, the remaining attributes defaulted. -/
def freshDraftRow (uid sid : String) : DraftRow :=
  { user_id := uid, session_id := sid, title := "", document_identifier := none,
    sections := [], project_basics := [], questionnaire := [],
    last_modified := "", status := "" }

/-- Response of `update_draft` (the `ALL_NEW` attributes projected to the
camel-case public shape). -/
structure UpdateDraftResponseBody where
  sessionId : String
  userId : String
  title : String
  documentIdentifier : String
  sections : SMap
  projectBasics : SMap
  questionnaire : SMap
  lastModified : String
deriving DecidableEq

structure UpdateDraftResponse where
  statusCode : Nat
  body : UpdateDraftResponseBody
deriving DecidableEq

/-- `update_draft(session_id, user_id, ...)`: builds the SET expression
from the non-`None` arguments (always including `last_modified`), runs
`table.update_item` with `ReturnValues="ALL_NEW"`, and projects the
updated item into the response. -/
def update_draft (sid uid : String) (a : UpdateDraftArgs) (now : String)
    (store : DraftStore) : UpdateDraftResponse × DraftStore :=
  let updated := applySetExpr a now ((findDraft store uid sid).getD (freshDraftRow uid sid))
  let store' := putDraft store updated
  ({ statusCode := 200,
     body := { sessionId := sid, userId := uid, title := updated.title,
               documentIdentifier := updated.document_identifier.getD "",
               sections := updated.sections,
               projectBasics := updated.project_basics,
               questionnaire := updated.questionnaire,
               lastModified := updated.last_modified } },
   store')

/-- Body of the `delete_draft` responses. -/
structure DeleteDraftBody where
  id : String
  deleted : Bool
  message : String
deriving DecidableEq

structure DeleteDraftResponse where
  statusCode : Nat
  body : DeleteDraftBody
deriving DecidableEq

/-- `delete_draft(session_id, user_id)`: `table.delete_item` succeeds
whether or not the item exists, so the happy path always reports a 200
with `deleted: True`; the 404 branch of the Python code fires only on a
backend `ResourceNotFoundException` (a missing table). -/
def delete_draft (sid uid : String) (store : DraftStore) :
    DeleteDraftResponse × DraftStore :=
  ({ statusCode := 200,
     body := { id := sid, deleted := true, message := "Draft deleted successfully" } },
   store.filter (fun r => !draftKeyIs uid sid r))

/-! ### Paginated listing

Both `list_drafts_by_user_id` and `list_sessions_by_user_id` run the same
fetch loop: query a last-modified-ordered secondary index with
`Limit = limit - len(items)`, optionally with a document-identifier
filter expression, extend the accumulator with the returned page, and
stop when the accumulator reaches `limit` or no `LastEvaluatedKey`
remains.  The index partition for the user is modelled as the list of
rows still to be scanned (in index order); the `LastEvaluatedKey` is
modelled as the unscanned remainder of that list. -/

/-- One `table.query` call against the index: evaluate at most `k` rows,
apply the filter expression to the evaluated rows, and report the
remainder as the continuation (`none` when the partition is exhausted). -/
def queryPage (pred : α → Bool) (k : Nat) (index : List α) :
    List α × Option (List α) :=
  let rest := index.drop k
  ((index.take k).filter pred, if rest.isEmpty then none else some rest)

/-- The `while len(items) < limit` fetch loop shared by the two listing
functions.  Each iteration evaluates at least one index row, so running
the loop with `fuel` equal to the index length never exhausts the fuel;
the fuel-exhaustion branch is unreachable from `runPaginate`. -/
def paginateLoop (pred : α → Bool) (limit fuel : Nat) (acc index : List α) :
    List α :=
  if acc.length < limit then
    if ((queryPage pred (limit - acc.length) index).2).isNone then
      acc ++ (queryPage pred (limit - acc.length) index).1
    else
      match fuel with
      | 0 => acc ++ (queryPage pred (limit - acc.length) index).1
      | fuel' + 1 =>
        paginateLoop pred limit fuel'
          (acc ++ (queryPage pred (limit - acc.length) index).1)
          ((queryPage pred (limit - acc.length) index).2.getD [])
  else acc

/-- The fetch loop started on a full index partition. -/
def runPaginate (pred : α → Bool) (limit : Nat) (index : List α) : List α :=
  paginateLoop pred limit index.length [] index

/-- Python's `<=` on strings: code-point lexicographic order on the
character lists. -/
def charsLe : List Char → List Char → Bool
  | [], _ => true
  | _ :: _, [] => false
  | a :: as, b :: bs =>
    if a.toNat = b.toNat then charsLe as bs else decide (a.toNat < b.toNat)

def strLe (s t : String) : Bool :=
  charsLe s.toList t.toList

/-- The ordering used by Python's `sorted(key=..., reverse=True)`:
descending in the sort key under the Boolean order `le`.  (The claims
proved here do not observe the relative order of equal keys, so the
stable sort is modelled by insertion sort.) -/
abbrev descRel (le : β → β → Bool) (key : α → β) : α → α → Prop :=
  fun a b => le (key b) (key a) = true

/-- `sorted(l, key=key, reverse=True)`. -/
def pySortDesc (le : β → β → Bool) (key : α → β) (l : List α) : List α :=
  l.insertionSort (descRel le key)

/-- Projection of a draft row to the public listing shape. -/
structure DraftProj where
  sessionId : String
  title : String
  documentIdentifier : String
  lastModified : String
deriving DecidableEq

/-- The optional `FilterExpression` on `document_identifier` (added only
when the requested identifier is truthy). -/
def draftDocFilter (docId : Option String) (r : DraftRow) : Bool :=
  if pyTruthy docId then r.document_identifier == docId else true

structure ListDraftsResponse where
  statusCode : Nat
  body : List DraftProj
deriving DecidableEq

/-- The user's partition of the `LastModifiedIndex` secondary index:
the user's rows in descending `last_modified` order. -/
def draftIndexFor (store : DraftStore) (uid : String) : List DraftRow :=
  pySortDesc strLe DraftRow.last_modified (store.filter (fun r => r.user_id == uid))

/-- `list_drafts_by_user_id(user_id, document_identifier, limit)`:
paginate the index, then defensively re-sort by `last_modified`
descending and project each row. -/
def list_drafts_by_user_id (uid : String) (docId : Option String)
    (limit : Nat) (store : DraftStore) : ListDraftsResponse :=
  let items := runPaginate (draftDocFilter docId) limit (draftIndexFor store uid)
  let sortedItems := pySortDesc strLe DraftRow.last_modified items
  { statusCode := 200,
    body := sortedItems.map (fun r =>
      { sessionId := r.session_id, title := pyStrip r.title,
        documentIdentifier := r.document_identifier.getD "",
        lastModified := r.last_modified }) }

/-! ### Session store adapter (`session-handler/lambda_function.py`) -/

/-- One chat entry of a session's history. -/
structure ChatEntry where
  role : String
  content : String
  timestamp : String
deriving DecidableEq

/-- One row of the session table, keyed by `(user_id, session_id)`. -/
structure SessionRow where
  user_id : String
  session_id : String
  title : String
  time_stamp : String
  document_identifier : Option String
  chat_history : List ChatEntry
deriving DecidableEq

abbrev SessionStore := List SessionRow

def sessionKeyIs (uid sid : String) (r : SessionRow) : Bool :=
  r.user_id == uid && r.session_id == sid

def findSession (store : SessionStore) (uid sid : String) : Option SessionRow :=
  store.find? (sessionKeyIs uid sid)

/-- Response of `delete_session`: its success and error dictionaries put
`id` and `deleted` at top level (unlike the draft variant, which nests
them in `body`). -/
structure DeleteSessionResponse where
  statusCode : Nat
  id : String
  deleted : Bool
deriving DecidableEq

/-- `delete_session(session_id, user_id)`: like `delete_draft`, the
backend delete is idempotent, so the happy path always returns the 200
`deleted: True` dictionary; the 404 branch needs a backend
`ResourceNotFoundException` (missing table). -/
def delete_session (sid uid : String) (store : SessionStore) :
    DeleteSessionResponse × SessionStore :=
  ({ statusCode := 200, id := sid, deleted := true },
   store.filter (fun r => !sessionKeyIs uid sid r))

/-- Projection of a session row to the public listing shape. -/
structure SessionProj where
  time_stamp : String
  session_id : String
  title : String
  document_identifier : String
deriving DecidableEq

def sessionDocFilter (docId : Option String) (r : SessionRow) : Bool :=
  if pyTruthy docId then r.document_identifier == docId else true

structure ListSessionsResponse where
  statusCode : Nat
  body : List SessionProj
deriving DecidableEq

/-- The user's partition of the `TimeIndex` secondary index: the user's
rows in descending `time_stamp` order. -/
def sessionIndexFor (store : SessionStore) (uid : String) : List SessionRow :=
  pySortDesc strLe SessionRow.time_stamp (store.filter (fun r => r.user_id == uid))

/-- `list_sessions_by_user_id(user_id, document_identifier, limit)`:
same fetch loop, then re-sort by `time_stamp` descending and project. -/
def list_sessions_by_user_id (uid : String) (docId : Option String)
    (limit : Nat) (store : SessionStore) : ListSessionsResponse :=
  let items := runPaginate (sessionDocFilter docId) limit (sessionIndexFor store uid)
  let sortedItems := pySortDesc strLe SessionRow.time_stamp items
  { statusCode := 200,
    body := sortedItems.map (fun r =>
      { time_stamp := r.time_stamp, session_id := r.session_id,
        title := pyStrip r.title,
        document_identifier := r.document_identifier.getD "" }) }

/-! ### Remaining draft operations and the draft handler -/

structure AddDraftResponseBody where
  sessionId : String
  title : String
  documentIdentifier : Option String
  lastModified : String
deriving DecidableEq

structure AddDraftResponse where
  statusCode : Nat
  body : AddDraftResponseBody
deriving DecidableEq

/-- `add_draft`: builds the full item (title stripped or defaulted to
`""`, dict attributes defaulted to empty, `last_modified` defaulted to
the current time, status `"draft"`) and `put_item`s it. -/
def add_draft (sid uid : String) (sections : SMap) (title : String)
    (docId : Option String) (pb q : Option SMap) (lm : Option String)
    (now : String) (store : DraftStore) : AddDraftResponse × DraftStore :=
  let item : DraftRow :=
    { user_id := uid, session_id := sid,
      title := if title = "" then "" else pyStrip title,
      document_identifier := docId,
      sections := sections, project_basics := pb.getD [],
      questionnaire := q.getD [],
      last_modified := pyOrDefault lm now,
      status := "draft" }
  ({ statusCode := 200,
     body := { sessionId := sid, title := item.title,
               documentIdentifier := item.document_identifier,
               lastModified := item.last_modified } },
   putDraft store item)

structure GetDraftResponse where
  statusCode : Nat
  item : Option DraftRow
deriving DecidableEq

/-- `get_draft`: `table.get_item`, responding 200 with the item (or the
empty dictionary, modelled as `none`) on the happy path. -/
def get_draft (sid uid : String) (store : DraftStore) : GetDraftResponse :=
  { statusCode := 200, item := findDraft store uid sid }

/-! #### Python dynamic values

`delete_user_drafts` and `delete_user_sessions` iterate over the value
returned by the listing function and subscript the iterated elements.
That value is the HTTP response *dictionary*, so the dynamic (CPython)
semantics of iterating and subscripting matter; they are modelled by a
small value universe.  Iterating a dict yields its keys; subscripting a
string with a string raises `TypeError`. -/

inductive PyVal where
  | pyStr : String → PyVal
  | pyNum : Nat → PyVal
  | pyBool : Bool → PyVal
  | pyList : List PyVal → PyVal
  | pyDict : List (String × PyVal) → PyVal

/-- `for x in v`: a dict yields its keys, a list its elements.  (Other
iterables do not occur at the call sites modelled here.) -/
def pyIter : PyVal → List PyVal
  | .pyDict kvs => kvs.map (fun kv => .pyStr kv.1)
  | .pyList xs => xs
  | _ => []

/-- `v[k]` for a string key `k`: dict lookup (`KeyError` when absent);
subscripting a string or any other value with a string raises
`TypeError`. -/
def pySubscript : PyVal → String → Except String PyVal
  | .pyDict kvs, k =>
    match kvs.find? (fun kv => kv.1 == k) with
    | some kv => .ok kv.2
    | none => .error ("KeyError: " ++ k)
  | .pyStr _, _ => .error "TypeError: string indices must be integers"
  | _, _ => .error "TypeError: object is not subscriptable"

/-- The draft listing response as the Python dictionary it is: keys
`statusCode`, `headers`, `body` (the body value is the serialised item
list; its exact JSON text is irrelevant to every lookup performed on the
dictionary). -/
def listDraftsResponseDict (r : ListDraftsResponse) : PyVal :=
  .pyDict [("statusCode", .pyNum r.statusCode),
           ("headers", .pyDict [("Access-Control-Allow-Origin", .pyStr "*"),
                                ("Content-Type", .pyStr "application/json")]),
           ("body", .pyList (r.body.map (fun p =>
             .pyDict [("sessionId", .pyStr p.sessionId),
                      ("title", .pyStr p.title),
                      ("documentIdentifier", .pyStr p.documentIdentifier),
                      ("lastModified", .pyStr p.lastModified)])))]

/-- The `delete_draft` response as a Python dictionary: keys
`statusCode`, `headers`, `body` — there is no top-level `deleted` key. -/
def deleteDraftResponseDict (r : DeleteDraftResponse) : PyVal :=
  .pyDict [("statusCode", .pyNum r.statusCode),
           ("headers", .pyDict [("Access-Control-Allow-Origin", .pyStr "*"),
                                ("Content-Type", .pyStr "application/json")]),
           ("body", .pyDict [("id", .pyStr r.body.id),
                             ("deleted", .pyBool r.body.deleted),
                             ("message", .pyStr r.body.message)])]

/-- An element of the list returned by the delete-all operations: either
the intended per-item `{"id": ..., "deleted": ...}` record, or the
`{"error": ...}` record produced by the `except` clause. -/
inductive DeleteAllEntry where
  | entry : String → Bool → DeleteAllEntry
  | errEntry : String → DeleteAllEntry
deriving DecidableEq

/-- The `for draft in drafts` loop body of `delete_user_drafts`: look up
`draft["session_id"]`, delete that draft, then look up
`result["deleted"]` on the delete response.  Any raised exception aborts
the loop and is reported as the single-element error list. -/
def deleteUserDraftsLoop (uid : String) :
    List PyVal → List DeleteAllEntry → DraftStore →
    List DeleteAllEntry × DraftStore
  | [], acc, st => (acc, st)
  | d :: rest, acc, st =>
    match pySubscript d "session_id" with
    | .error e => ([.errEntry e], st)
    | .ok (.pyStr sid) =>
      let r := delete_draft sid uid st
      match pySubscript (deleteDraftResponseDict r.1) "deleted" with
      | .ok (.pyBool b) => deleteUserDraftsLoop uid rest (acc ++ [.entry sid b]) r.2
      | .ok _ => ([.errEntry "TypeError"], r.2)
      | .error e => ([.errEntry e], r.2)
    | .ok _ => ([.errEntry "TypeError"], st)

/-- `delete_user_drafts(user_id)`: fetches
`list_drafts_by_user_id(user_id)` — which returns the HTTP response
dictionary, not an item list — and iterates over it. -/
def delete_user_drafts (uid : String) (store : DraftStore) :
    List DeleteAllEntry × DraftStore :=
  let drafts := listDraftsResponseDict (list_drafts_by_user_id uid none 15 store)
  deleteUserDraftsLoop uid (pyIter drafts) [] store

/-- The session listing response as the Python dictionary it is. -/
def listSessionsResponseDict (r : ListSessionsResponse) : PyVal :=
  .pyDict [("statusCode", .pyNum r.statusCode),
           ("headers", .pyDict [("Access-Control-Allow-Origin", .pyStr "*")]),
           ("body", .pyList (r.body.map (fun p =>
             .pyDict [("time_stamp", .pyStr p.time_stamp),
                      ("session_id", .pyStr p.session_id),
                      ("title", .pyStr p.title),
                      ("document_identifier", .pyStr p.document_identifier)])))]

/-- The `delete_session` response as a Python dictionary (this variant
does have a top-level `deleted` key). -/
def deleteSessionResponseDict (r : DeleteSessionResponse) : PyVal :=
  .pyDict [("statusCode", .pyNum r.statusCode),
           ("id", .pyStr r.id),
           ("headers", .pyDict [("Access-Control-Allow-Origin", .pyStr "*")]),
           ("deleted", .pyBool r.deleted)]

/-- The `for session in sessions` loop body of `delete_user_sessions`:
look up `session["SessionId"]`, delete, then `result["deleted"]`. -/
def deleteUserSessionsLoop (uid : String) :
    List PyVal → List DeleteAllEntry → SessionStore →
    List DeleteAllEntry × SessionStore
  | [], acc, st => (acc, st)
  | s :: rest, acc, st =>
    match pySubscript s "SessionId" with
    | .error e => ([.errEntry e], st)
    | .ok (.pyStr sid) =>
      let r := delete_session sid uid st
      match pySubscript (deleteSessionResponseDict r.1) "deleted" with
      | .ok (.pyBool b) => deleteUserSessionsLoop uid rest (acc ++ [.entry sid b]) r.2
      | .ok _ => ([.errEntry "TypeError"], r.2)
      | .error e => ([.errEntry e], r.2)
    | .ok _ => ([.errEntry "TypeError"], st)

/-- `delete_user_sessions(user_id)`: fetches
`list_sessions_by_user_id(user_id)` — again the HTTP response
dictionary — and iterates over it. -/
def delete_user_sessions (uid : String) (store : SessionStore) :
    List DeleteAllEntry × SessionStore :=
  let sessions := listSessionsResponseDict (list_sessions_by_user_id uid none 15 store)
  deleteUserSessionsLoop uid (pyIter sessions) [] store

/-! #### Draft handler entry point -/

/-- The parsed JSON body of a draft-editor request.  `none` in a field
models the key being absent from the JSON object (the `data.get(...)`
default case). -/
structure DraftRequestBody where
  operation : Option String := none
  user_id : Option String := none
  session_id : Option String := none
  sections : Option SMap := none
  title : Option String := none
  document_identifier : Option String := none
  project_basics : Option SMap := none
  questionnaire : Option SMap := none
  last_modified : Option String := none

/-- The heterogeneous values `lambda_handler` can return. -/
inductive DraftHandlerOut where
  | addResp : AddDraftResponse → DraftHandlerOut
  | getResp : GetDraftResponse → DraftHandlerOut
  | updateResp : UpdateDraftResponse → DraftHandlerOut
  | listResp : ListDraftsResponse → DraftHandlerOut
  | deleteResp : DeleteDraftResponse → DraftHandlerOut
  | deleteAllResp : List DeleteAllEntry → DraftHandlerOut
  | errorResp : Nat → String → DraftHandlerOut
deriving DecidableEq

/-- `list_drafts_by_user_id` branches turn the literal string
`'undefined'` into `None` before listing. -/
def undefinedToNone (d : Option String) : Option String :=
  match d with
  | some s => if s = "undefined" then none else some s
  | none => none

/-- The draft-editor `lambda_handler`: extracts the fields with their
`data.get` defaults — in particular `sections` defaults to the *empty
dict* and `title` to the generated `"Draft on <now>"` string, not to
`None` — validates `operation`/`user_id`/`session_id`, and dispatches.
(The two `datetime.now()` reads of the Python code are modelled by the
single `now` parameter.) -/
def draft_lambda_handler (body : DraftRequestBody) (now : String)
    (store : DraftStore) : DraftHandlerOut × DraftStore :=
  let user_id := body.user_id
  let session_id := body.session_id
  let sections := body.sections.getD []
  let title := body.title.getD ("Draft on " ++ now)
  let document_identifier := body.document_identifier
  let project_basics := body.project_basics
  let questionnaire := body.questionnaire
  let last_modified := body.last_modified
  match body.operation with
  | none => (.errorResp 400 "Operation is required", store)
  | some op =>
    if op = "" then (.errorResp 400 "Operation is required", store)
    else if op = "add_draft" then
      if pyTruthy session_id && pyTruthy user_id then
        let r := add_draft (session_id.getD "") (user_id.getD "") sections title
          document_identifier project_basics questionnaire last_modified now store
        (.addResp r.1, r.2)
      else (.errorResp 400 "session_id and user_id are required for add_draft operation", store)
    else if op = "get_draft" then
      if pyTruthy session_id && pyTruthy user_id then
        (.getResp (get_draft (session_id.getD "") (user_id.getD "") store), store)
      else (.errorResp 400 "session_id and user_id are required for get_draft operation", store)
    else if op = "update_draft" then
      if pyTruthy session_id && pyTruthy user_id then
        let r := update_draft (session_id.getD "") (user_id.getD "")
          { sections := some sections, title := some title,
            document_identifier := document_identifier,
            project_basics := project_basics, questionnaire := questionnaire,
            last_modified := last_modified } now store
        (.updateResp r.1, r.2)
      else (.errorResp 400 "session_id and user_id are required for update_draft operation", store)
    else if op = "list_drafts_by_user_id" then
      if pyTruthy user_id then
        (.listResp (list_drafts_by_user_id (user_id.getD "")
          (undefinedToNone document_identifier) 15 store), store)
      else (.errorResp 400 "user_id is required for list_drafts_by_user_id operation", store)
    else if op = "list_all_drafts_by_user_id" then
      if pyTruthy user_id then
        (.listResp (list_drafts_by_user_id (user_id.getD "")
          (undefinedToNone document_identifier) 100 store), store)
      else (.errorResp 400 "user_id is required for list_all_drafts_by_user_id operation", store)
    else if op = "delete_draft" then
      if pyTruthy session_id && pyTruthy user_id then
        let r := delete_draft (session_id.getD "") (user_id.getD "") store
        (.deleteResp r.1, r.2)
      else (.errorResp 400 "session_id and user_id are required for delete_draft operation", store)
    else if op = "delete_user_drafts" then
      if pyTruthy user_id then
        let r := delete_user_drafts (user_id.getD "") store
        (.deleteAllResp r.1, r.2)
      else (.errorResp 400 "user_id is required for delete_user_drafts operation", store)
    else (.errorResp 400 ("Operation not found/allowed! Operation Sent: " ++ op), store)

/-! ### Feedback adapter (`feedback-handler/lambda_function.py`) -/

/-- One item of the feedback table.  `feedbackValue` carries the numeric
`Feedback` attribute (0 or 1); the Python code renders it with `str()`
when exporting.  The constant `"YES"` partition discriminator is the
`anyKey` field. -/
structure FeedbackItem where
  feedbackID : String
  sessionID : String
  userPrompt : String
  feedbackComments : String
  topic : String
  problem : String
  feedbackValue : Nat
  chatbotMessage : String
  sources : List String
  createdAt : String
  anyKey : String
deriving DecidableEq

abbrev FeedbackStore := List FeedbackItem

/-- `clean_csv`: `str(field).replace('"', '""').replace('\n', '').replace(',', '')`
— double every quote, then drop newlines, then drop commas. -/
def doubleQuotes : List Char → List Char
  | [] => []
  | c :: cs =>
    if c = '"' then '"' :: '"' :: doubleQuotes cs else c :: doubleQuotes cs

def clean_csv (s : String) : String :=
  String.mk (((doubleQuotes s.toList).filter (fun c => c ≠ '\n')).filter
    (fun c => c ≠ ','))

/-- The CSV header line written by `download_feedback`. -/
def csvHeader : String :=
  "FeedbackID, SessionID, UserPrompt, FeedbackComment, Topic, Problem, Feedback, ChatbotMessage, CreatedAt\n"

/-- One exported CSV data line: the nine cleaned fields joined by
`", "`, terminated by a newline. -/
def csvRow (it : FeedbackItem) : String :=
  clean_csv it.feedbackID ++ ", " ++ clean_csv it.sessionID ++ ", " ++
  clean_csv it.userPrompt ++ ", " ++ clean_csv it.feedbackComments ++ ", " ++
  clean_csv it.topic ++ ", " ++ clean_csv it.problem ++ ", " ++
  clean_csv (toString it.feedbackValue) ++ ", " ++
  clean_csv it.chatbotMessage ++ ", " ++ clean_csv it.createdAt ++ "\n"

/-- The `csv_content` accumulation loop of `download_feedback`. -/
def buildCsv (items : List FeedbackItem) : String :=
  items.foldl (fun acc it => acc ++ csvRow it) csvHeader

/-- Validated `FeedbackData` submission (the Pydantic model; required
fields present, optional ones as options). -/
structure FeedbackSubmission where
  sessionId : String
  prompt : String
  completion : String
  feedback : Nat
  comment : Option String := none
  topic : Option String := none
  problem : Option String := none
  sources : Option (List String) := none
deriving DecidableEq

/-- Validated `DownloadFeedbackRequest` body. -/
structure DownloadRequest where
  startTime : String
  endTime : String
  topic : Option String := none
deriving DecidableEq

/-- Validated `FeedbackDeleteParams` query parameters. -/
structure DeleteFeedbackParams where
  topic : String
  createdAt : String
deriving DecidableEq

/-- Validated `FeedbackQueryParams` query parameters. -/
structure FeedbackQuery where
  startTime : String
  endTime : String
  topic : Option String := none
  nextPageToken : Option String := none
deriving DecidableEq

/-- A feedback-handler HTTP event.  Each `Option`-typed body/parameter
field is the outcome of the corresponding Pydantic parse (`none` =
`ValidationError`).  `roles` is the parsed `custom:role` claim list
(`none` = claims missing or unparseable). -/
structure FeedbackEvent where
  routeKey : String
  rawPath : String
  roles : Option (List String) := none
  postBody : Option FeedbackSubmission := none
  downloadBody : Option DownloadRequest := none
  deleteParams : Option DeleteFeedbackParams := none
  queryParams : Option FeedbackQuery := none

/-- Body shapes of feedback-handler responses (the validation-error
details list is elided). -/
inductive FbBody where
  | feedbackId : String → FbBody
  | validationError : FbBody
  | downloadUrl : String → FbBody
  | message : String → FbBody
deriving DecidableEq

structure FbResponse where
  statusCode : Nat
  body : FbBody
deriving DecidableEq

/-- Mutable backends touched by the feedback handler: the feedback table
and the CSV download bucket (key ↦ object body). -/
structure FbState where
  store : FeedbackStore
  s3 : List (String × String)
deriving DecidableEq

/-- The admin gate of the handler: the role list parsed from
`claims['custom:role']` must contain `"Admin"`; any failure to obtain it
leaves `admin = False`. -/
def feedbackAdmin (roles : Option (List String)) : Bool :=
  match roles with
  | some rs => rs.contains "Admin"
  | none => false

/-- The item stored by `post_feedback` for a validated submission:
falsy `comment`/`topic`/`problem`/`sources` fall back to their defaults
(`topic` to the `"N/A (Good Response)"` sentinel). -/
def mkFeedbackItem (fd : FeedbackSubmission) (genId now : String) : FeedbackItem :=
  { feedbackID := genId, sessionID := fd.sessionId, userPrompt := fd.prompt,
    feedbackComments := pyOrDefault fd.comment "",
    topic := pyOrDefault fd.topic "N/A (Good Response)",
    problem := pyOrDefault fd.problem "",
    feedbackValue := fd.feedback, chatbotMessage := fd.completion,
    sources := fd.sources.getD [], createdAt := now, anyKey := "YES" }

/-- `post_feedback`: validation failure responds 400; otherwise the item
is stored and the generated id is returned. -/
def post_feedback (ev : FeedbackEvent) (genId now : String) (st : FbState) :
    FbResponse × FbState :=
  match ev.postBody with
  | none => ({ statusCode := 400, body := .validationError }, st)
  | some fd =>
    ({ statusCode := 200, body := .feedbackId genId },
     { st with store := st.store ++ [mkFeedbackItem fd genId now] })

/-- The time-range query of `download_feedback`: `CreatedAt` between the
bounds (inclusive), on the `AnyIndex` partition when the topic is falsy
or `"any"`, else on the topic partition. -/
def feedbackQueryItems (startTime endTime : String) (topic : Option String)
    (store : FeedbackStore) : List FeedbackItem :=
  if !pyTruthy topic || topic == some "any" then
    store.filter (fun it => it.anyKey == "YES" &&
      strLe startTime it.createdAt && strLe it.createdAt endTime)
  else
    store.filter (fun it => it.topic == topic.getD "" &&
      strLe startTime it.createdAt && strLe it.createdAt endTime)

/-- The presigned URL for an uploaded object (the opaque signed URL is
modelled as the bucket/key pair it addresses). -/
def mkPresignedUrl (bucket key : String) : String :=
  bucket ++ "/" ++ key

/-- `download_feedback`: validate the body, query the time range, build
the CSV, upload it, and return the presigned URL. -/
def download_feedback (ev : FeedbackEvent) (bucket : String) (st : FbState) :
    FbResponse × FbState :=
  match ev.downloadBody with
  | none => ({ statusCode := 400, body := .validationError }, st)
  | some req =>
    let items := feedbackQueryItems req.startTime req.endTime req.topic st.store
    let csv := buildCsv items
    let fileName := "feedback-" ++ req.startTime ++ "-" ++ req.endTime ++ ".csv"
    ({ statusCode := 200, body := .downloadUrl (mkPresignedUrl bucket fileName) },
     { st with s3 := st.s3 ++ [(fileName, csv)] })

/-- `get_feedback`: the query, pagination and 200 response of the Python
function sit inside its `except ValidationError` block *after* that
block's `return`, so they are unreachable; a request with valid
parameters runs off the end of the function and returns `None`. -/
def get_feedback (ev : FeedbackEvent) (st : FbState) :
    Option FbResponse × FbState :=
  match ev.queryParams with
  | none => (some { statusCode := 400, body := .validationError }, st)
  | some _ => (none, st)

/-- `delete_feedback`: the `table.delete_item` call and the 200 response
of the Python function likewise sit inside the `except ValidationError`
block after its `return` and are unreachable; a request with valid
`topic`/`createdAt` parameters runs off the end of the function,
deleting nothing and returning `None`. -/
def delete_feedback (ev : FeedbackEvent) (st : FbState) :
    Option FbResponse × FbState :=
  match ev.deleteParams with
  | none => (some { statusCode := 400, body := .validationError }, st)
  | some _ => (none, st)

/-- The feedback `lambda_handler`: POST requests go to the download
branch only when the raw path is exactly `/user-feedback/download-feedback`
*and* the caller is admin, otherwise to `post_feedback`; GET and DELETE
require admin; anything else is 405. -/
def feedback_lambda_handler (ev : FeedbackEvent) (genId now bucket : String)
    (st : FbState) : Option FbResponse × FbState :=
  let admin := feedbackAdmin ev.roles
  if strIn "POST" ev.routeKey then
    if ev.rawPath == "/user-feedback/download-feedback" && admin then
      let r := download_feedback ev bucket st
      (some r.1, r.2)
    else
      let r := post_feedback ev genId now st
      (some r.1, r.2)
  else if strIn "GET" ev.routeKey && admin then
    get_feedback ev st
  else if strIn "DELETE" ev.routeKey && admin then
    delete_feedback ev st
  else
    (some { statusCode := 405, body := .message "Method Not Allowed" }, st)

/-! ### Knowledge-base sync adapter (`kb-sync/lambda_function.py`) -/

inductive JobStatus where
  | starting
  | inProgress
  | complete
  | failed
deriving DecidableEq

/-- An ingestion job summary as reported by `list_ingestion_jobs`
(status plus `updatedAt`). -/
structure IngestionJob where
  status : JobStatus
  updatedAt : Nat
deriving DecidableEq

/-- The managed ingestion backend: the job summaries it reports for each
data source id. -/
structure KbBackend where
  jobs : String → List IngestionJob

/-- Environment of the sync adapter: knowledge-base id, the NOFO-bucket
data source, and the (possibly empty) user-documents data source. -/
structure KbEnv where
  kb_index : String
  source_index : String
  user_documents_source : String

/-- `list_ingestion_jobs` with a `STATUS EQ` filter. -/
def listJobsWithStatus (bk : KbBackend) (ds : String) (st : JobStatus) :
    List IngestionJob :=
  (bk.jobs ds).filter (fun j => j.status == st)

/-- What the backend check reports for a data source: an ingestion job
in state `IN_PROGRESS` or `STARTING` exists. -/
def runningReported (bk : KbBackend) (ds : String) : Bool :=
  !(listJobsWithStatus bk ds .starting ++ listJobsWithStatus bk ds .inProgress).isEmpty

/-- `check_running(data_source_id)`: `False` for a falsy id, otherwise
whether the combined STARTING/IN_PROGRESS job history is non-empty. -/
def check_running (bk : KbBackend) (ds : String) : Bool :=
  if ds = "" then false else runningReported bk ds

/-- `check_any_running()`: either data source busy (the user-documents
check is skipped when that source is unconfigured). -/
def check_any_running (env : KbEnv) (bk : KbBackend) : Bool :=
  check_running bk env.source_index ||
    (if env.user_documents_source ≠ "" then check_running bk env.user_documents_source
     else false)

structure KbResponse where
  statusCode : Nat
  body : String
deriving DecidableEq

/-- Rendering of a sync timestamp for the `last-sync` response (the
`strftime` formatting is abstracted to the decimal rendering of the
chosen timestamp). -/
def formatSyncTime (t : Nat) : String := toString t

/-- `get_last_sync()`: collect the COMPLETE job summaries of the
configured data sources, sort by `updatedAt` descending, and report the
most recent (or the no-history message). -/
def get_last_sync (env : KbEnv) (bk : KbBackend) : KbResponse :=
  let nofoSyncs := if env.source_index ≠ "" then
    listJobsWithStatus bk env.source_index .complete else []
  let userSyncs := if env.user_documents_source ≠ "" then
    listJobsWithStatus bk env.user_documents_source .complete else []
  let allSyncs := nofoSyncs ++ userSyncs
  match pySortDesc Nat.ble IngestionJob.updatedAt allSyncs with
  | [] => { statusCode := 200, body := "No sync history available" }
  | j :: _ => { statusCode := 200, body := formatSyncTime j.updatedAt }

/-- A sync-adapter event: a raw HTTP path (empty for direct programmatic
invocation), the optional `syncSource` field, and the parsed role claim
(`none` = claims missing or unparseable, the `except` branch). -/
structure KbEvent where
  rawPath : String := ""
  syncSource : String := ""
  roles : Option (List String) := none

/-- The sync `lambda_handler`.  Besides the optional HTTP response it
returns the list of data source ids passed to `start_ingestion_job`, in
call order.  Direct invocations (no path) dispatch on `syncSource` and
return `None`.  HTTP invocations pass the admin gate and then match
`still-syncing` / `last-sync` as substrings of the path; *no branch
matches `sync-kb`*, so such a request falls off the end of the function
and returns `None` without starting anything. -/
def kb_lambda_handler (env : KbEnv) (bk : KbBackend) (ev : KbEvent) :
    Option KbResponse × List String :=
  if ev.rawPath = "" then
    if ev.syncSource = "user-documents" && env.user_documents_source ≠ "" then
      if check_running bk env.user_documents_source then (none, [])
      else (none, [env.user_documents_source])
    else if ev.syncSource = "nofo" && env.source_index ≠ "" then
      if check_running bk env.source_index then (none, [])
      else (none, [env.source_index])
    else
      if check_any_running env bk then (none, [])
      else
        (none,
         (if env.user_documents_source ≠ "" then [env.user_documents_source] else []) ++
         (if env.source_index ≠ "" then [env.source_index] else []))
  else
    match ev.roles with
    | none =>
      (some { statusCode := 500,
              body := "Unable to check user role, please ensure you have Cognito configured correctly with a custom:role attribute." }, [])
    | some rs =>
      if rs.contains "Admin" then
        if strIn "still-syncing" ev.rawPath then
          (some { statusCode := 200,
                  body := if check_any_running env bk then "STILL SYNCING" else "DONE SYNCING" }, [])
        else if strIn "last-sync" ev.rawPath then
          (some (get_last_sync env bk), [])
        else (none, [])
      else
        (some { statusCode := 403,
                body := "User is not authorized to perform this action" }, [])

/-! ### Document/object deletion adapters
(`delete-document/lambda_function.py` and `delete-s3/lambda_function.py`) -/

/-- The JWT claims relevant to the deletion adapters. -/
structure AuthClaims where
  cognitoUsername : Option String := none
  username : Option String := none

/-- A deletion request: claims (`none` = missing, the `except` 500
path), and the parsed body (`none` = `json.loads` failure) holding the
optional `KEY`. -/
structure DeleteEvent where
  claims : Option AuthClaims := none
  bodyKey : Option (Option String) := none

structure DeleteResponse where
  statusCode : Nat
  message : String
deriving DecidableEq

/-- `claims.get('cognito:username') or claims.get('username')`. -/
def derivedUserId (c : AuthClaims) : Option String :=
  pyOr c.cognitoUsername c.username

/-- The `delete-document` handler.  Second component: the object keys
passed to the object-store delete call, in order.  Third component:
whether the async KB-sync invocation was issued. -/
def delete_document_handler (ev : DeleteEvent) :
    DeleteResponse × List String × Bool :=
  match ev.claims with
  | none => ({ statusCode := 500, message := "Unable to process request" }, [], false)
  | some c =>
    let userId := derivedUserId c
    if !pyTruthy userId then
      ({ statusCode := 401, message := "User not authenticated" }, [], false)
    else
      match ev.bodyKey with
      | none => ({ statusCode := 500, message := "Unable to process request" }, [], false)
      | some key =>
        if !pyTruthy key ||
            !pyStartsWith (key.getD "") (userId.getD "" ++ "/") then
          ({ statusCode := 403,
             message := "Unauthorized: Can only delete your own files" }, [], false)
        else
          let k := key.getD ""
          ({ statusCode := 200, message := "Document deleted successfully" },
           [k, k ++ ".metadata.json"], true)

/-- The `delete-s3` handler: the same authorization logic with its own
response texts. -/
def delete_s3_handler (ev : DeleteEvent) :
    DeleteResponse × List String × Bool :=
  match ev.claims with
  | none => ({ statusCode := 500, message := "Unable to process request" }, [], false)
  | some c =>
    let userId := derivedUserId c
    if !pyTruthy userId then
      ({ statusCode := 401, message := "User not authenticated" }, [], false)
    else
      match ev.bodyKey with
      | none => ({ statusCode := 500, message := "Unable to process request" }, [], false)
      | some key =>
        if !pyTruthy key ||
            !pyStartsWith (key.getD "") (userId.getD "" ++ "/") then
          ({ statusCode := 403,
             message := "Unauthorized: Can only delete your own files" }, [], false)
        else
          let k := key.getD ""
          ({ statusCode := 200, message := "Object deleted successfully" },
           [k, k ++ ".metadata.json"], true)

/-! ### Observables used in claim statements -/

/-- Number of occurrences of a character in a string. -/
def countChar (c : Char) (s : String) : Nat :=
  s.toList.count c

/-- Strictly-descending check on a key: every element's key is strictly
below its predecessor's. -/
def strictDescBy (key : α → String) : List α → Bool
  | [] => true
  | [_] => true
  | a :: b :: rest => !strLe (key a) (key b) && strictDescBy key (b :: rest)

/-! ### Helper lemmas -/

theorem charsLe_total : ∀ as bs : List Char,
    charsLe as bs = true ∨ charsLe bs as = true := by
  intro as
  induction as with
  | nil => intro bs; left; rfl
  | cons a as ih =>
    intro bs
    cases bs with
    | nil => right; rfl
    | cons b bs =>
      simp only [charsLe]
      by_cases hab : a.toNat = b.toNat
      · simp only [hab, if_pos rfl, if_pos hab.symm]
        simpa [hab] using ih bs
      · have hba : ¬ b.toNat = a.toNat := fun h => hab h.symm
        simp only [if_neg hab, if_neg hba, decide_eq_true_eq]
        omega

theorem charsLe_trans : ∀ as bs cs : List Char,
    charsLe as bs = true → charsLe bs cs = true → charsLe as cs = true := by
  intro as
  induction as with
  | nil => intro bs cs _ _; rfl
  | cons a as ih =>
    intro bs cs h1 h2
    cases bs with
    | nil => simp [charsLe] at h1
    | cons b bs =>
      cases cs with
      | nil => simp [charsLe] at h2
      | cons c cs =>
        simp only [charsLe] at h1 h2 ⊢
        by_cases hab : a.toNat = b.toNat
        · by_cases hbc : b.toNat = c.toNat
          · have hac : a.toNat = c.toNat := hab.trans hbc
            simp only [if_pos hab, if_pos hbc] at h1 h2
            simp only [if_pos hac]
            exact ih bs cs h1 h2
          · simp only [if_neg hbc, decide_eq_true_eq] at h2
            have hac : ¬ a.toNat = c.toNat := by omega
            simp only [if_neg hac, decide_eq_true_eq]
            omega
        · simp only [if_neg hab, decide_eq_true_eq] at h1
          by_cases hbc : b.toNat = c.toNat
          · have hac : ¬ a.toNat = c.toNat := by omega
            simp only [if_neg hac, decide_eq_true_eq]
            omega
          · simp only [if_neg hbc, decide_eq_true_eq] at h2
            have hac : ¬ a.toNat = c.toNat := by omega
            simp only [if_neg hac, decide_eq_true_eq]
            omega

theorem strLe_total (s t : String) : strLe s t = true ∨ strLe t s = true :=
  charsLe_total s.toList t.toList

theorem strLe_trans (s t u : String) :
    strLe s t = true → strLe t u = true → strLe s u = true :=
  charsLe_trans s.toList t.toList u.toList

theorem paginateLoop_length_le (pred : α → Bool) (limit : Nat) :
    ∀ (fuel : Nat) (acc index : List α), acc.length ≤ limit →
      (paginateLoop pred limit fuel acc index).length ≤ limit := by
  intro fuel
  induction fuel with
  | zero =>
    intro acc index hacc
    by_cases h : acc.length < limit
    · have hplen : ((index.take (limit - acc.length)).filter pred).length ≤
          limit - acc.length :=
        le_trans (List.length_filter_le _ _) (by simp)
      simp only [paginateLoop, queryPage, if_pos h, ite_self, List.length_append]
      omega
    · simp only [paginateLoop, if_neg h]
      exact hacc
  | succ fuel ih =>
    intro acc index hacc
    by_cases h : acc.length < limit
    · have hplen : ((index.take (limit - acc.length)).filter pred).length ≤
          limit - acc.length :=
        le_trans (List.length_filter_le _ _) (by simp)
      simp only [paginateLoop, queryPage, if_pos h]
      by_cases hdrop : (index.drop (limit - acc.length)).isEmpty
      · simp only [hdrop, Option.isNone_none, if_true, List.length_append]
        omega
      · simp only [hdrop, Bool.false_eq_true, if_false, Option.isNone_some,
          Option.getD_some]
        exact ih _ _ (by simp only [List.length_append]; omega)
    · simp only [paginateLoop, if_neg h]
      exact hacc

theorem runPaginate_length_le (pred : α → Bool) (limit : Nat) (index : List α) :
    (runPaginate pred limit index).length ≤ limit :=
  paginateLoop_length_le pred limit index.length [] index (by simp)

theorem pySortDesc_sorted (le : β → β → Bool) (key : α → β)
    (htot : ∀ x y, le x y = true ∨ le y x = true)
    (htrans : ∀ x y z, le x y = true → le y z = true → le x z = true)
    (l : List α) : (pySortDesc le key l).Pairwise (descRel le key) := by
  haveI : IsTotal α (descRel le key) := ⟨fun a b => htot (key b) (key a)⟩
  haveI : IsTrans α (descRel le key) :=
    ⟨fun _ _ _ hab hbc => htrans _ _ _ hbc hab⟩
  exact List.sorted_insertionSort _ _

theorem pySortDesc_length (le : β → β → Bool) (key : α → β) (l : List α) :
    (pySortDesc le key l).length = l.length :=
  (List.perm_insertionSort _ _).length_eq

theorem countChar_append (c : Char) (s t : String) :
    countChar c (s ++ t) = countChar c s + countChar c t := by
  simp [countChar, String.toList, String.data_append, List.count_append]

theorem countChar_clean_newline (s : String) :
    countChar '\n' (clean_csv s) = 0 := by
  simp only [countChar, clean_csv, String.toList]
  rw [List.count_eq_zero]
  intro hmem
  have := List.of_mem_filter (List.mem_of_mem_filter hmem)
  simp at this

theorem countChar_clean_comma (s : String) :
    countChar ',' (clean_csv s) = 0 := by
  simp only [countChar, clean_csv, String.toList]
  rw [List.count_eq_zero]
  intro hmem
  have := List.of_mem_filter hmem
  simp at this

theorem countChar_csvRow_newline (it : FeedbackItem) :
    countChar '\n' (csvRow it) = 1 := by
  have hsep : countChar '\n' ", " = 0 := by decide
  have hnl : countChar '\n' "\n" = 1 := by decide
  simp [csvRow, countChar_append, countChar_clean_newline, hsep, hnl]

theorem countChar_csvRow_comma (it : FeedbackItem) :
    countChar ',' (csvRow it) = 8 := by
  have hsep : countChar ',' ", " = 1 := by decide
  have hnl : countChar ',' "\n" = 0 := by decide
  simp [csvRow, countChar_append, countChar_clean_comma, hsep, hnl]

theorem buildCsv_count (c : Char) (k : Nat)
    (hrow : ∀ it : FeedbackItem, countChar c (csvRow it) = k) :
    ∀ (items : List FeedbackItem) (acc : String),
      countChar c (items.foldl (fun a it => a ++ csvRow it) acc) =
        countChar c acc + k * items.length := by
  intro items
  induction items with
  | nil => intro acc; simp
  | cons it items ih =>
    intro acc
    simp only [List.foldl_cons, ih, countChar_append, hrow, List.length_cons]
    ring

/-! ### Claim theorems -/

/-- Claim C1 (code bug).  The claim says an update request supplying only
a subset of fields, sent through the handler entry point, leaves every
unsupplied field unchanged and refreshes last-modified.  The handler
however extracts `sections` with default `{}` and `title` with default
`"Draft on <now>"` before calling `update_draft`, so an update request
supplying *no* content fields overwrites the stored sections with the
empty dict and the stored title with the generated default — while
`document_identifier`, `project_basics` and `questionnaire` (whose
handler defaults are `None`) are preserved and `last_modified` is
refreshed.  This theorem evaluates the handler at such a request. -/
theorem update_via_handler_overwrites_unsupplied_sections_and_title :
    (draft_lambda_handler
      { operation := some "update_draft", user_id := some "u", session_id := some "s" }
      "2024-06-01 12:00:00"
      [{ user_id := "u", session_id := "s", title := "My Grant",
         document_identifier := some "doc-1",
         sections := [("background", "old text")],
         project_basics := [("name", "P")],
         questionnaire := [("q1", "a1")],
         last_modified := "2024-01-01 00:00:00", status := "draft" }]).2 =
    [{ user_id := "u", session_id := "s",
       title := "Draft on 2024-06-01 12:00:00",
       document_identifier := some "doc-1",
       sections := [],
       project_basics := [("name", "P")],
       questionnaire := [("q1", "a1")],
       last_modified := "2024-06-01 12:00:00", status := "draft" }] := by decide

/-- Claim C2 (code bug).  The claim says delete-all-for-owner deletes
each of the owner's items and returns one `{id, deleted}` entry per
item.  Both implementations instead iterate over the HTTP response
dictionary returned by the listing function (yielding the keys
`statusCode`, `headers`, `body`), so the first loop iteration raises
`TypeError` subscripting a string; the `except` clause turns the whole
call into a single `{"error": ...}` entry and no item is ever deleted.
Evaluated here for an owner with one stored draft and one stored
session. -/
theorem delete_all_for_owner_returns_single_error_entry :
    (delete_user_drafts "u"
      [{ user_id := "u", session_id := "s1", title := "T",
         document_identifier := none, sections := [], project_basics := [],
         questionnaire := [], last_modified := "2024-01-01", status := "draft" }] =
     ([.errEntry "TypeError: string indices must be integers"],
      [{ user_id := "u", session_id := "s1", title := "T",
         document_identifier := none, sections := [], project_basics := [],
         questionnaire := [], last_modified := "2024-01-01", status := "draft" }])) ∧
    (delete_user_sessions "u"
      [{ user_id := "u", session_id := "s1", title := "T",
         time_stamp := "2024-01-01", document_identifier := none,
         chat_history := [] }] =
     ([.errEntry "TypeError: string indices must be integers"],
      [{ user_id := "u", session_id := "s1", title := "T",
         time_stamp := "2024-01-01", document_identifier := none,
         chat_history := [] }])) := by decide

/-- Claim C3 (code bug).  The claim says an admin DELETE with valid
`topic`/`createdAt` parameters removes the entry and returns 200.  The
`table.delete_item` call and the 200 return of `delete_feedback` are
unreachable (they sit inside the `except ValidationError` block after
its `return`), so the handler returns `None` and the store keeps the
targeted entry.  Evaluated at an admin DELETE whose parameters name a
stored entry. -/
theorem admin_delete_feedback_returns_none_and_keeps_item :
    feedback_lambda_handler
      { routeKey := "DELETE /user-feedback", rawPath := "/user-feedback",
        roles := some ["Admin"],
        deleteParams := some { topic := "T", createdAt := "2024-01-01T00:00:00Z" } }
      "gen-id" "2024-02-02T00:00:00Z" "feedback-bucket"
      { store := [{ feedbackID := "f1", sessionID := "s1", userPrompt := "p",
                    feedbackComments := "", topic := "T", problem := "",
                    feedbackValue := 0, chatbotMessage := "c", sources := [],
                    createdAt := "2024-01-01T00:00:00Z", anyKey := "YES" }],
        s3 := [] } =
    (none,
     { store := [{ feedbackID := "f1", sessionID := "s1", userPrompt := "p",
                   feedbackComments := "", topic := "T", problem := "",
                   feedbackValue := 0, chatbotMessage := "c", sources := [],
                   createdAt := "2024-01-01T00:00:00Z", anyKey := "YES" }],
       s3 := [] }) := by decide

/-- Claim C4 (code bug).  The claim says an admin HTTP request whose raw
path contains `sync-kb` starts an ingestion job (when none is running)
and returns an HTTP-shaped response.  The HTTP branch of the sync
handler only matches `still-syncing` and `last-sync`; there is no
`sync-kb` branch, so the request falls off the end of the function:
no ingestion job is started and `None` is returned.  Evaluated at an
admin request for path `/sync-kb` with an idle backend. -/
theorem sync_kb_http_request_falls_through_without_action :
    kb_lambda_handler
      { kb_index := "kb", source_index := "src", user_documents_source := "uds" }
      { jobs := fun _ => [] }
      { rawPath := "/sync-kb", syncSource := "", roles := some ["Admin"] } =
    (none, []) := by decide

/-- Claim C5, counterexample to strictness.  The claim says the returned
items are sorted by last-modified *strictly* descending; with two stored
items sharing a last-modified value both adapters return the tie
adjacent, so the strict ordering fails. -/
theorem list_by_owner_not_strictly_sorted_on_ties :
    strictDescBy DraftProj.lastModified
      (list_drafts_by_user_id "u" none 15
        [{ user_id := "u", session_id := "s1", title := "A",
           document_identifier := none, sections := [], project_basics := [],
           questionnaire := [], last_modified := "2024-01-01", status := "draft" },
         { user_id := "u", session_id := "s2", title := "B",
           document_identifier := none, sections := [], project_basics := [],
           questionnaire := [], last_modified := "2024-01-01", status := "draft" }]).body
      = false ∧
    strictDescBy SessionProj.time_stamp
      (list_sessions_by_user_id "u" none 15
        [{ user_id := "u", session_id := "s1", title := "A",
           time_stamp := "2024-01-01", document_identifier := none,
           chat_history := [] },
         { user_id := "u", session_id := "s2", title := "B",
           time_stamp := "2024-01-01", document_identifier := none,
           chat_history := [] }]).body = false := by decide

/-- Claim C5, amended.  For every owner, optional document filter and
requested limit, the draft and session list-by-owner operations return
at most `limit` items, and the returned items are sorted by the
last-modified key descending — non-strictly: items with equal keys may
be adjacent. -/
theorem list_by_owner_at_most_limit_and_sorted_desc
    (dstore : DraftStore) (sstore : SessionStore) (uid : String)
    (docId : Option String) (limit : Nat) :
    ((list_drafts_by_user_id uid docId limit dstore).body.length ≤ limit ∧
     (list_drafts_by_user_id uid docId limit dstore).body.Pairwise
       (fun p q => strLe q.lastModified p.lastModified = true)) ∧
    ((list_sessions_by_user_id uid docId limit sstore).body.length ≤ limit ∧
     (list_sessions_by_user_id uid docId limit sstore).body.Pairwise
       (fun p q => strLe q.time_stamp p.time_stamp = true)) := by
  constructor
  · constructor
    · simp only [list_drafts_by_user_id, List.length_map, pySortDesc_length]
      exact runPaginate_length_le _ _ _
    · simp only [list_drafts_by_user_id]
      exact List.pairwise_map.mpr
        ((pySortDesc_sorted strLe DraftRow.last_modified strLe_total strLe_trans
          _).imp (fun h => h))
  · constructor
    · simp only [list_sessions_by_user_id, List.length_map, pySortDesc_length]
      exact runPaginate_length_le _ _ _
    · simp only [list_sessions_by_user_id]
      exact List.pairwise_map.mpr
        ((pySortDesc_sorted strLe SessionRow.time_stamp strLe_total strLe_trans
          _).imp (fun h => h))

/-- Claim C9, counterexample.  The claim says deleting a missing (user,
session) key returns a not-found-shaped response; both adapters instead
report plain success (`200`, `deleted: True`), because the backend
delete succeeds on a missing item and the 404 branch needs a missing
table.  Evaluated at the empty store. -/
theorem delete_missing_key_returns_success_not_404 :
    ((delete_draft "s" "u" []).1.statusCode = 200 ∧
     (delete_draft "s" "u" []).1.statusCode ≠ 404 ∧
     (delete_draft "s" "u" []).1.body.deleted = true) ∧
    ((delete_session "s" "u" []).1.statusCode = 200 ∧
     (delete_session "s" "u" []).1.statusCode ≠ 404 ∧
     (delete_session "s" "u" []).1.deleted = true) := by decide

/-- Claim C9, amended.  Deleting a (user, session) key with no stored
item does not throw: it returns the success-shaped response (`200`,
`deleted: True`) and leaves the store unchanged; the not-found branch of
each adapter fires only on a backend resource-not-found error (missing
table), which a missing item does not raise. -/
theorem delete_missing_key_success_shape_and_store_unchanged
    (dstore : DraftStore) (sstore : SessionStore) (uid sid : String)
    (hd : findDraft dstore uid sid = none)
    (hs : findSession sstore uid sid = none) :
    delete_draft sid uid dstore =
      ({ statusCode := 200,
         body := { id := sid, deleted := true,
                   message := "Draft deleted successfully" } }, dstore) ∧
    delete_session sid uid sstore =
      ({ statusCode := 200, id := sid, deleted := true }, sstore) := by
  have hd2 : ∀ r ∈ dstore, draftKeyIs uid sid r = false := by
    intro r hr
    have := List.find?_eq_none.mp hd r hr
    simpa using this
  have hs2 : ∀ r ∈ sstore, sessionKeyIs uid sid r = false := by
    intro r hr
    have := List.find?_eq_none.mp hs r hr
    simpa using this
  constructor
  · simp only [delete_draft, Prod.mk.injEq, true_and]
    rw [List.filter_eq_self]
    intro r hr
    simp [hd2 r hr]
  · simp only [delete_session, Prod.mk.injEq, true_and]
    rw [List.filter_eq_self]
    intro r hr
    simp [hs2 r hr]

/-- Claim C9 witness: the amended theorem applied at the empty stores. -/
theorem delete_missing_key_success_shape_witness :
    findDraft [] "u" "s" = none ∧ findSession [] "u" "s" = none ∧
    (delete_draft "s" "u" [] =
      ({ statusCode := 200,
         body := { id := "s", deleted := true,
                   message := "Draft deleted successfully" } }, []) ∧
     delete_session "s" "u" [] =
      ({ statusCode := 200, id := "s", deleted := true }, [])) :=
  ⟨rfl, rfl, delete_missing_key_success_shape_and_store_unchanged [] [] "u" "s" rfl rfl⟩

/-- Claim C6 (confirmed).  For every sequence of feedback items,
whatever their fields contain, the exported CSV text has exactly one
newline per line — one header plus one line per item — and exactly eight
commas per line: `clean_csv` removes embedded newlines and commas, so no
field can split a row or add a column. -/
theorem csv_export_row_and_column_counts (items : List FeedbackItem) :
    countChar '\n' (buildCsv items) = items.length + 1 ∧
    countChar ',' (buildCsv items) = 8 * (items.length + 1) := by
  have h1 := buildCsv_count '\n' 1 countChar_csvRow_newline items csvHeader
  have h2 := buildCsv_count ',' 8 countChar_csvRow_comma items csvHeader
  have hh1 : countChar '\n' csvHeader = 1 := by decide
  have hh2 : countChar ',' csvHeader = 8 := by decide
  constructor
  · rw [buildCsv, h1, hh1]
    omega
  · rw [buildCsv, h2, hh2]
    omega

/-- Claim C7 (confirmed).  For every deletion request whose caller is
authenticated (a truthy derived user id) but whose target key is absent
or not prefixed by that identity plus `/`, both deletion adapters return
403 and issue no object-store delete call. -/
theorem unauthorized_delete_returns_403_and_deletes_nothing
    (ev : DeleteEvent) (c : AuthClaims) (u : String) (key : Option String)
    (hc : ev.claims = some c) (hu : derivedUserId c = some u) (hne : u ≠ "")
    (hb : ev.bodyKey = some key)
    (hk : ∀ k, key = some k → pyStartsWith k (u ++ "/") = false) :
    ((delete_document_handler ev).1.statusCode = 403 ∧
     (delete_document_handler ev).2.1 = []) ∧
    ((delete_s3_handler ev).1.statusCode = 403 ∧
     (delete_s3_handler ev).2.1 = []) := by
  cases key with
  | none =>
    constructor
    · simp [delete_document_handler, hc, hu, hb, pyTruthy, hne]
    · simp [delete_s3_handler, hc, hu, hb, pyTruthy, hne]
  | some k =>
    have hks := hk k rfl
    by_cases hk0 : k = ""
    · constructor
      · simp [delete_document_handler, hc, hu, hb, pyTruthy, hne, hk0]
      · simp [delete_s3_handler, hc, hu, hb, pyTruthy, hne, hk0]
    · constructor
      · simp [delete_document_handler, hc, hu, hb, pyTruthy, hne, hk0, hks]
      · simp [delete_s3_handler, hc, hu, hb, pyTruthy, hne, hk0, hks]

/-- Claim C7 witness: the theorem applied to a request from `alice`
targeting a key under `bob/`. -/
theorem unauthorized_delete_returns_403_witness :
    derivedUserId { cognitoUsername := some "alice", username := none } =
      some "alice" ∧
    pyStartsWith "bob/file.pdf" ("alice" ++ "/") = false ∧
    (((delete_document_handler
        { claims := some { cognitoUsername := some "alice", username := none },
          bodyKey := some (some "bob/file.pdf") }).1.statusCode = 403 ∧
      (delete_document_handler
        { claims := some { cognitoUsername := some "alice", username := none },
          bodyKey := some (some "bob/file.pdf") }).2.1 = []) ∧
     ((delete_s3_handler
        { claims := some { cognitoUsername := some "alice", username := none },
          bodyKey := some (some "bob/file.pdf") }).1.statusCode = 403 ∧
      (delete_s3_handler
        { claims := some { cognitoUsername := some "alice", username := none },
          bodyKey := some (some "bob/file.pdf") }).2.1 = [])) :=
  ⟨rfl, by decide,
   unauthorized_delete_returns_403_and_deletes_nothing _ _ _ _ rfl rfl
     (by decide) rfl (fun k hk => by cases hk; decide)⟩

/-- Claim C8 (confirmed).  For every direct sync-start invocation (no
HTTP path), whenever the backend check reports an ingestion job in state
IN_PROGRESS or STARTING for a data source, the handler does not call
`start_ingestion_job` for that data source, and the invocation returns
no error (it returns `None`). -/
theorem no_start_when_backend_reports_running
    (env : KbEnv) (bk : KbBackend) (ev : KbEvent) (ds : String)
    (hdirect : ev.rawPath = "") (hrun : runningReported bk ds = true) :
    ds ∉ (kb_lambda_handler env bk ev).2 ∧
    (kb_lambda_handler env bk ev).1 = none := by
  have hne : ∀ x : String, x ≠ "" → check_running bk x = false → ds ≠ x := by
    intro x hx hcr heq
    rw [check_running, if_neg hx] at hcr
    rw [← heq, hrun] at hcr
    exact absurd hcr (by simp)
  have hmain : ∀ x ∈ (kb_lambda_handler env bk ev).2,
      x ≠ "" ∧ check_running bk x = false := by
    intro x hx
    by_cases hc1 : ev.syncSource = "user-documents" ∧ env.user_documents_source ≠ ""
    · obtain ⟨h1a, h1b⟩ := hc1
      by_cases h2 : check_running bk env.user_documents_source = true
      · simp [kb_lambda_handler, hdirect, h1a, h1b, h2] at hx
      · have h2f : check_running bk env.user_documents_source = false := by
          simpa using h2
        simp [kb_lambda_handler, hdirect, h1a, h1b, h2f] at hx
        subst hx
        exact ⟨h1b, h2f⟩
    · have hb1 : (decide (ev.syncSource = "user-documents") &&
          decide (env.user_documents_source ≠ "")) = false := by
        by_cases ha : ev.syncSource = "user-documents"
        · have hbn : env.user_documents_source = "" :=
            not_not.mp (fun hb => hc1 ⟨ha, hb⟩)
          simp [ha, hbn]
        · simp [ha]
      by_cases hc3 : ev.syncSource = "nofo" ∧ env.source_index ≠ ""
      · obtain ⟨h3a, h3b⟩ := hc3
        by_cases h4 : check_running bk env.source_index = true
        · simp [kb_lambda_handler, hdirect, hc1, h3a, h3b, h4] at hx
        · have h4f : check_running bk env.source_index = false := by simpa using h4
          simp [kb_lambda_handler, hdirect, hc1, h3a, h3b, h4f] at hx
          subst hx
          exact ⟨h3b, h4f⟩
      · have hb3 : (decide (ev.syncSource = "nofo") &&
            decide (env.source_index ≠ "")) = false := by
          by_cases ha : ev.syncSource = "nofo"
          · have hbn : env.source_index = "" :=
              not_not.mp (fun hb => hc3 ⟨ha, hb⟩)
            simp [ha, hbn]
          · simp [ha]
        by_cases h5 : check_any_running env bk = true
        · simp [kb_lambda_handler, hdirect, hc1, hc3, h5] at hx
        · have h5f : check_any_running env bk = false := by simpa using h5
          by_cases hu : env.user_documents_source = ""
          · have hsrc : check_running bk env.source_index = false := by
              simpa [check_any_running, hu] using h5f
            by_cases hs : env.source_index = ""
            · simp [kb_lambda_handler, hdirect, hc1, hc3, h5f, hu, hs] at hx
            · have hn3 : ev.syncSource ≠ "nofo" := fun h => hc3 ⟨h, hs⟩
              simp [kb_lambda_handler, hdirect, hc1, hn3, h5f, hu, hs] at hx
              subst hx
              exact ⟨hs, hsrc⟩
          · have h5s : check_running bk env.source_index = false ∧
                check_running bk env.user_documents_source = false := by
              simpa [check_any_running, hu] using h5f
            have hn1 : ev.syncSource ≠ "user-documents" := fun h => hc1 ⟨h, hu⟩
            by_cases hs : env.source_index = ""
            · simp [kb_lambda_handler, hdirect, hn1, hc3, h5f, hu, hs] at hx
              subst hx
              exact ⟨hu, h5s.2⟩
            · have hn3 : ev.syncSource ≠ "nofo" := fun h => hc3 ⟨h, hs⟩
              simp [kb_lambda_handler, hdirect, hn1, hn3, h5f, hu, hs] at hx
              rcases hx with hx | hx
              · subst hx
                exact ⟨hu, h5s.2⟩
              · subst hx
                exact ⟨hs, h5s.1⟩
  have hnone : (kb_lambda_handler env bk ev).1 = none := by
    by_cases hc1 : ev.syncSource = "user-documents" ∧ env.user_documents_source ≠ ""
    · obtain ⟨h1a, h1b⟩ := hc1
      by_cases h2 : check_running bk env.user_documents_source = true
      · simp [kb_lambda_handler, hdirect, h1a, h1b, h2]
      · simp [kb_lambda_handler, hdirect, h1a, h1b,
          (by simpa using h2 : check_running bk env.user_documents_source = false)]
    · have hb1 : (decide (ev.syncSource = "user-documents") &&
          decide (env.user_documents_source ≠ "")) = false := by
        by_cases ha : ev.syncSource = "user-documents"
        · have hbn : env.user_documents_source = "" :=
            not_not.mp (fun hb => hc1 ⟨ha, hb⟩)
          simp [ha, hbn]
        · simp [ha]
      by_cases hc3 : ev.syncSource = "nofo" ∧ env.source_index ≠ ""
      · obtain ⟨h3a, h3b⟩ := hc3
        by_cases h4 : check_running bk env.source_index = true
        · simp [kb_lambda_handler, hdirect, hc1, h3a, h3b, h4]
        · simp [kb_lambda_handler, hdirect, hc1, h3a, h3b,
            (by simpa using h4 : check_running bk env.source_index = false)]
      · have hb3 : (decide (ev.syncSource = "nofo") &&
            decide (env.source_index ≠ "")) = false := by
          by_cases ha : ev.syncSource = "nofo"
          · have hbn : env.source_index = "" :=
              not_not.mp (fun hb => hc3 ⟨ha, hb⟩)
            simp [ha, hbn]
          · simp [ha]
        by_cases h5 : check_any_running env bk = true
        · simp [kb_lambda_handler, hdirect, hc1, hc3, h5]
        · simp [kb_lambda_handler, hdirect, hc1, hc3,
            (by simpa using h5 : check_any_running env bk = false)]
  refine ⟨fun hmem => ?_, hnone⟩
  obtain ⟨hx1, hx2⟩ := hmain ds hmem
  exact hne ds hx1 hx2 rfl

/-- Claim C8 witness: the theorem applied to a backend reporting an
IN_PROGRESS job for the user-documents data source while that source is
asked to sync. -/
theorem no_start_when_backend_reports_running_witness :
    runningReported
      { jobs := fun s =>
          if s = "uds" then [{ status := .inProgress, updatedAt := 7 }] else [] }
      "uds" = true ∧
    ("uds" ∉ (kb_lambda_handler
        { kb_index := "kb", source_index := "src", user_documents_source := "uds" }
        { jobs := fun s =>
            if s = "uds" then [{ status := .inProgress, updatedAt := 7 }] else [] }
        { rawPath := "", syncSource := "user-documents", roles := none }).2 ∧
     (kb_lambda_handler
        { kb_index := "kb", source_index := "src", user_documents_source := "uds" }
        { jobs := fun s =>
            if s = "uds" then [{ status := .inProgress, updatedAt := 7 }] else [] }
        { rawPath := "", syncSource := "user-documents", roles := none }).1 = none) :=
  ⟨by decide,
   no_start_when_backend_reports_running _ _ _ "uds" rfl (by decide)⟩

/-- Claim C10 (confirmed).  A POST to the raw path
`/user-feedback/download-feedback` from a caller without the admin role
is not rejected with an authorization error: it is routed to
`post_feedback`, so the caller gets either a 400 validation error (store
unchanged) or a 200 with a generated feedback id (entry appended), and
never a download URL. -/
theorem non_admin_download_post_falls_to_submission
    (ev : FeedbackEvent) (genId now bucket : String) (st : FbState)
    (hpost : strIn "POST" ev.routeKey = true)
    (hpath : ev.rawPath = "/user-feedback/download-feedback")
    (hadmin : feedbackAdmin ev.roles = false) :
    feedback_lambda_handler ev genId now bucket st =
      (some (post_feedback ev genId now st).1, (post_feedback ev genId now st).2) ∧
    ((ev.postBody = none ∧
      (feedback_lambda_handler ev genId now bucket st).1 =
        some { statusCode := 400, body := .validationError } ∧
      (feedback_lambda_handler ev genId now bucket st).2 = st) ∨
     (∃ fd, ev.postBody = some fd ∧
      (feedback_lambda_handler ev genId now bucket st).1 =
        some { statusCode := 200, body := .feedbackId genId } ∧
      (feedback_lambda_handler ev genId now bucket st).2.store =
        st.store ++ [mkFeedbackItem fd genId now])) ∧
    ∀ code url, (feedback_lambda_handler ev genId now bucket st).1 ≠
      some { statusCode := code, body := .downloadUrl url } := by
  have hroute : feedback_lambda_handler ev genId now bucket st =
      (some (post_feedback ev genId now st).1, (post_feedback ev genId now st).2) := by
    simp [feedback_lambda_handler, hpost, hpath, hadmin]
  refine ⟨hroute, ?_, ?_⟩
  · cases hpb : ev.postBody with
    | none =>
      left
      exact ⟨rfl, by simp [hroute, post_feedback, hpb],
        by simp [hroute, post_feedback, hpb]⟩
    | some fd =>
      right
      exact ⟨fd, rfl, by simp [hroute, post_feedback, hpb],
        by simp [hroute, post_feedback, hpb]⟩
  · intro code url
    rw [hroute]
    cases hpb : ev.postBody with
    | none => simp [post_feedback, hpb]
    | some fd => simp [post_feedback, hpb]

/-- Claim C10 witness: the theorem applied to a non-admin POST to the
download path carrying a valid submission. -/
theorem non_admin_download_post_witness :
    strIn "POST" "POST /user-feedback/download-feedback" = true ∧
    feedbackAdmin (some ["User"]) = false ∧
    feedback_lambda_handler
      { routeKey := "POST /user-feedback/download-feedback",
        rawPath := "/user-feedback/download-feedback",
        roles := some ["User"],
        postBody := some { sessionId := "s", prompt := "p", completion := "c",
                           feedback := 1 } }
      "gen" "now" "bucket" { store := [], s3 := [] } =
      (some (post_feedback
        { routeKey := "POST /user-feedback/download-feedback",
          rawPath := "/user-feedback/download-feedback",
          roles := some ["User"],
          postBody := some { sessionId := "s", prompt := "p", completion := "c",
                             feedback := 1 } }
        "gen" "now" { store := [], s3 := [] }).1,
       (post_feedback
        { routeKey := "POST /user-feedback/download-feedback",
          rawPath := "/user-feedback/download-feedback",
          roles := some ["User"],
          postBody := some { sessionId := "s", prompt := "p", completion := "c",
                             feedback := 1 } }
        "gen" "now" { store := [], s3 := [] }).2) :=
  ⟨by decide, by decide,
   (non_admin_download_post_falls_to_submission _ "gen" "now" "bucket" _
     (by decide) rfl (by decide)).1⟩

end GrantWell
